import Mathlib

/-!
Verification of `integration/rootfs/setuid-sploit.c` from julz/garden-linux.

The program is:

  int main(int argc, char *argv[]) {
    if (setuid(0) < 0) { perror("setuid"); abort(); }
    if (execv(argv[1], &argv[1]) < 0) { perror("execl"); abort(); }
    return 0;
  }

We embed it shallowly: the operating system is an explicit environment
`Env` giving the return value (and errno description) of each system
call, and `main` computes the trace of system calls issued, the lines
written to the standard error stream, and the final outcome of the
process.  `argv` is the C argument vector as a list of strings; since
the C vector is NULL-terminated, `argv[1]` when `argc = 1` reads the
NULL terminator, which we model as `none : Option String`, and
`&argv[1]` is then the empty vector.
-/

namespace SetuidSploit

/-- A system call issued by the program, as observed by the kernel.
`setuid uid` requests that the process user identity be set to `uid`;
`execv path args` requests that the process image be replaced by the
executable at `path` (`none` models a NULL pointer) with `args` as the
new argument vector. -/
inductive SysCall where
  | setuid (uid : Nat)
  | execv (path : Option String) (args : List String)
  deriving DecidableEq, Repr

/-- How a call to `execv` behaves: either the process image is replaced
and the call never returns, or the call returns the integer `v` with
`err` the errno description in effect afterwards.  (POSIX guarantees
`v = -1` on failure; the environment is kept general so that the code's
`< 0` check is modelled faithfully.) -/
inductive ExecResult where
  | replaced
  | returned (v : Int) (err : String)
  deriving DecidableEq, Repr

/-- The operating system's responses to the two system calls the program
can issue.  `setuid u = (v, err)` means the call returns `v` with `err`
the errno description; `execv p a` is the behaviour of the replacement
request for path `p` and argument vector `a`. -/
structure Env where
  setuid : Nat → Int × String
  execv : Option String → List String → ExecResult

/-- How an invocation of the program ends: abnormal termination via
`abort`, replacement of the process image by `path`/`args`, or a normal
return from `main` with the given code. -/
inductive Outcome where
  | aborted
  | replaced (path : Option String) (args : List String)
  | returned (code : Int)
  deriving DecidableEq, Repr

/-- Everything observable about one invocation: the system calls issued
in order, the lines written to the standard error stream, and how the
process ended. -/
structure Result where
  trace : List SysCall
  stderr : List String
  outcome : Outcome
  deriving DecidableEq, Repr

/-- `perror(label)` writes `label`, a colon and a space, and the
operating-system description of the current errno value. -/
def perrorLine (label err : String) : String := label ++ ": " ++ err

/-- Shallow embedding of `main` from setuid-sploit.c.  The first system
call is `setuid(0)`; if its return value is negative the program prints
`perror("setuid")` and aborts.  Otherwise it issues
`execv(argv[1], &argv[1])`; if that call returns a negative value the
program prints `perror("execl")` and aborts; if it returns a
non-negative value the program falls through to `return 0`; if it does
not return, the process image has been replaced. -/
def main (env : Env) (argv : List String) : Result :=
  let s := env.setuid 0
  if s.1 < 0 then
    { trace := [SysCall.setuid 0]
      stderr := [perrorLine "setuid" s.2]
      outcome := Outcome.aborted }
  else
    let path := argv.get? 1
    let args := argv.drop 1
    match env.execv path args with
    | ExecResult.replaced =>
        { trace := [SysCall.setuid 0, SysCall.execv path args]
          stderr := []
          outcome := Outcome.replaced path args }
    | ExecResult.returned v err =>
        if v < 0 then
          { trace := [SysCall.setuid 0, SysCall.execv path args]
            stderr := [perrorLine "execl" err]
            outcome := Outcome.aborted }
        else
          { trace := [SysCall.setuid 0, SysCall.execv path args]
            stderr := []
            outcome := Outcome.returned 0 }

/-- True of the process-replacement calls in a trace. -/
def isExecvCall : SysCall → Bool
  | SysCall.execv _ _ => true
  | _ => false

/-- True of the identity-transition calls in a trace. -/
def isSetuidCall : SysCall → Bool
  | SysCall.setuid _ => true
  | _ => false

/-- The POSIX contract for `execv`: when the call does return, its
return value is negative (POSIX specifies -1 with errno set). -/
def Env.execvRespectsPosix (env : Env) : Prop :=
  ∀ p a v e, env.execv p a = ExecResult.returned v e → v < 0

/-- An environment in which the identity transition is refused
(`setuid` returns -1 with EPERM) and the replacement call would
succeed. -/
def envSetuidFails : Env :=
  { setuid := fun _ => (-1, "Operation not permitted")
    execv := fun _ _ => ExecResult.replaced }

/-- An environment in which both system calls succeed. -/
def envAllOk : Env :=
  { setuid := fun _ => (0, "")
    execv := fun _ _ => ExecResult.replaced }

/-- An environment in which the identity transition succeeds and every
replacement call fails with ENOENT. -/
def envExecFails : Env :=
  { setuid := fun _ => (0, "")
    execv := fun _ _ => ExecResult.returned (-1) "No such file or directory" }

/-- An environment in which the identity transition to the superuser
succeeds (any other transition is refused), replacement with a NULL
path fails with EFAULT as POSIX requires, and any other replacement
succeeds. -/
def envAllOkStrict : Env :=
  { setuid := fun u =>
      if u = 0 then (0, "") else (-1, "Operation not permitted")
    execv := fun p _ =>
      if p = none then ExecResult.returned (-1) "Bad address"
      else ExecResult.replaced }

/-- Helper: in every invocation the trace is either the single failed
identity-transition call, or that call followed by exactly one
replacement call for `argv[1]` and the tail of the vector. -/
theorem trace_shape (env : Env) (argv : List String) :
    (main env argv).trace = [SysCall.setuid 0] ∨
    (main env argv).trace =
      [SysCall.setuid 0, SysCall.execv (argv.get? 1) (argv.drop 1)] := by
  unfold main
  by_cases hs : (env.setuid 0).1 < 0
  · left
    simp [hs]
  · right
    simp only [hs, if_false]
    cases env.execv (argv.get? 1) (argv.drop 1) with
    | replaced => rfl
    | returned v err => by_cases hv : v < 0 <;> simp [hv]

/-- Helper: the replacement call appears in the trace exactly when the
identity-transition call did not return a negative value. -/
theorem execReached_iff (env : Env) (argv : List String) :
    (∃ c ∈ (main env argv).trace, isExecvCall c = true) ↔
      ¬ (env.setuid 0).1 < 0 := by
  unfold main
  by_cases hs : (env.setuid 0).1 < 0
  · simp [hs, isExecvCall]
  · simp only [hs, if_false]
    cases env.execv (argv.get? 1) (argv.drop 1) with
    | replaced => simp [hs, isExecvCall]
    | returned v err =>
        by_cases hv : v < 0 <;> simp [hv, hs, isExecvCall]

/-- C1: whenever the privilege-transition request (setuid to the
superuser) fails, the program writes the operating-system error
description to the standard error stream, terminates abnormally via
abort, and never issues the process-replacement call. -/
theorem setuid_failure_aborts_before_exec (env : Env) (argv : List String)
    (v : Int) (err : String) (hv : env.setuid 0 = (v, err)) (hneg : v < 0) :
    (main env argv).stderr = [perrorLine "setuid" err] ∧
    (main env argv).outcome = Outcome.aborted ∧
    ∀ c ∈ (main env argv).trace, isExecvCall c = false := by
  simp [main, hv, hneg, isExecvCall]

/-- Witness for C1 at a concrete environment and argument vector. -/
theorem setuid_failure_aborts_before_exec_witness :
    (main envSetuidFails ["sploit", "/bin/sh"]).stderr =
      [perrorLine "setuid" "Operation not permitted"] ∧
    (main envSetuidFails ["sploit", "/bin/sh"]).outcome = Outcome.aborted ∧
    ∀ c ∈ (main envSetuidFails ["sploit", "/bin/sh"]).trace,
      isExecvCall c = false :=
  setuid_failure_aborts_before_exec envSetuidFails ["sploit", "/bin/sh"]
    (-1) "Operation not permitted" rfl (by decide)

/-- C2: when the identity transition succeeds and the argument vector
has at least two elements `a0 :: a1 :: rest`, the replacement request
uses `a1` as the executable path and `a1 :: rest` — the tail of the
original vector, unchanged and in order — as the new argument vector,
so the target receives its own path as argv[0]. -/
theorem exec_forwards_arguments (env : Env) (a0 a1 : String)
    (rest : List String) (hs : 0 ≤ (env.setuid 0).1) :
    (main env (a0 :: a1 :: rest)).trace =
      [SysCall.setuid 0, SysCall.execv (some a1) (a1 :: rest)] := by
  have hlt : ¬ (env.setuid 0).1 < 0 := not_lt.mpr hs
  unfold main
  simp only [hlt, if_false, List.get?, List.drop]
  cases env.execv (some a1) (a1 :: rest) with
  | replaced => rfl
  | returned v err =>
      by_cases hv : v < 0 <;> simp [hv]

/-- Witness for C2 at a concrete environment and argument vector. -/
theorem exec_forwards_arguments_witness :
    (main envAllOk ["sploit", "/bin/echo", "hello"]).trace =
      [SysCall.setuid 0,
       SysCall.execv (some "/bin/echo") ["/bin/echo", "hello"]] :=
  exec_forwards_arguments envAllOk "sploit" "/bin/echo" ["hello"]
    (by decide)

/-- C3: when the identity transition succeeds but the replacement call
fails (returns a negative value), the program writes the
operating-system error description to the standard error stream and
aborts, having issued the replacement call exactly once — it never
continues running as an elevated-but-unreplaced process. -/
theorem exec_failure_aborts (env : Env) (argv : List String)
    (v : Int) (err : String) (hs : 0 ≤ (env.setuid 0).1)
    (he : env.execv (argv.get? 1) (argv.drop 1) = ExecResult.returned v err)
    (hv : v < 0) :
    (main env argv).stderr = [perrorLine "execl" err] ∧
    (main env argv).outcome = Outcome.aborted ∧
    ((main env argv).trace.filter isExecvCall).length = 1 := by
  have hlt : ¬ (env.setuid 0).1 < 0 := not_lt.mpr hs
  have he' : env.execv argv[1]? argv.tail = ExecResult.returned v err := by
    simpa using he
  simp [main, hlt, he', hv, isExecvCall]

/-- Witness for C3 at a concrete environment and argument vector. -/
theorem exec_failure_aborts_witness :
    (main envExecFails ["sploit", "/bin/sh"]).stderr =
      [perrorLine "execl" "No such file or directory"] ∧
    (main envExecFails ["sploit", "/bin/sh"]).outcome = Outcome.aborted ∧
    ((main envExecFails ["sploit", "/bin/sh"]).trace.filter
      isExecvCall).length = 1 :=
  exec_failure_aborts envExecFails ["sploit", "/bin/sh"]
    (-1) "No such file or directory" (by decide) rfl (by decide)

/-- C4: under the POSIX contract for execv (a replacement call that
returns does so with a negative value), the program never reaches its
final `return 0`: every invocation ends in abort or in process
replacement, never in a normal return from main. -/
theorem return_zero_unreachable (env : Env) (argv : List String)
    (h : env.execvRespectsPosix) :
    ∀ c : Int, (main env argv).outcome ≠ Outcome.returned c := by
  intro c
  unfold main
  by_cases hs : (env.setuid 0).1 < 0
  · simp [hs]
  · simp only [hs, if_false]
    cases hx : env.execv (argv.get? 1) (argv.drop 1) with
    | replaced => simp
    | returned v err =>
        have hv : v < 0 := h _ _ _ _ hx
        simp [hv]

/-- Witness for C4 at a concrete environment and argument vector. -/
theorem return_zero_unreachable_witness :
    (main envExecFails ["sploit", "/bin/sh"]).outcome ≠
      Outcome.returned 0 :=
  return_zero_unreachable envExecFails ["sploit", "/bin/sh"]
    (by
      intro p a v e he
      simp only [envExecFails] at he
      cases he
      decide)
    0

/-- C5: in every invocation the very first system call issued is a
request to set the user identity to exactly 0, and it is the only
identity-transition request the program ever makes. -/
theorem setuid_is_first_and_only (env : Env) (argv : List String) :
    (main env argv).trace.head? = some (SysCall.setuid 0) ∧
    (main env argv).trace.filter isSetuidCall = [SysCall.setuid 0] := by
  unfold main
  by_cases hs : (env.setuid 0).1 < 0
  · simp [hs, isSetuidCall]
  · simp only [hs, if_false]
    cases env.execv (argv.get? 1) (argv.drop 1) with
    | replaced => simp [isSetuidCall, isExecvCall]
    | returned v err =>
        by_cases hv : v < 0 <;> simp [hv, isSetuidCall]

/-- C6: when no target path is supplied (the argument vector holds only
the program's own name), `argv[1]` is the NULL terminator, and under
the POSIX behaviour that a replacement request with a NULL path fails,
the invocation deterministically aborts with an error line on the
standard error stream — it never silently replaces the process image
with a defined target. -/
theorem missing_argument_fails (env : Env) (name : String)
    (hnull : ∃ v e, env.execv none [] = ExecResult.returned v e ∧ v < 0) :
    (main env [name]).outcome = Outcome.aborted ∧
    (main env [name]).stderr ≠ [] := by
  obtain ⟨v, e, he, hv⟩ := hnull
  unfold main
  by_cases hs : (env.setuid 0).1 < 0
  · simp [hs]
  · simp only [hs, if_false, List.get?, List.drop, he]
    simp [hv]

/-- Witness for C6 at a concrete environment. -/
theorem missing_argument_fails_witness :
    (main envAllOkStrict ["sploit"]).outcome = Outcome.aborted ∧
    (main envAllOkStrict ["sploit"]).stderr ≠ [] :=
  missing_argument_fails envAllOkStrict "sploit"
    ⟨-1, "Bad address", rfl, by decide⟩

/-- C7: every invocation issues at most two system calls, in strict
sequence: the identity-transition request first, then at most one
replacement request; no call is ever issued twice. -/
theorem at_most_two_calls (env : Env) (argv : List String) :
    (main env argv).trace = [SysCall.setuid 0] ∨
    (main env argv).trace =
      [SysCall.setuid 0, SysCall.execv (argv.get? 1) (argv.drop 1)] :=
  trace_shape env argv

/-- C8: the invocation's observable behaviour is a function of only the
responses to the two system calls it issues (two environments agreeing
on those responses give identical traces, stderr and outcome — the
program consults no other state), and on the success path nothing is
written to the standard error stream. -/
theorem no_other_state_touched (env env2 : Env) (argv : List String)
    (hs : env.setuid 0 = env2.setuid 0)
    (he : env.execv (argv.get? 1) (argv.drop 1) =
          env2.execv (argv.get? 1) (argv.drop 1)) :
    main env argv = main env2 argv ∧
    ∀ p a, (main env argv).outcome = Outcome.replaced p a →
      (main env argv).stderr = [] := by
  constructor
  · unfold main
    rw [hs]
    by_cases h1 : (env2.setuid 0).1 < 0
    · simp [h1]
    · simp only [h1, if_false]
      rw [he]
  · intro p a h
    unfold main at h ⊢
    by_cases h1 : (env.setuid 0).1 < 0
    · simp [h1] at h
    · simp only [h1, if_false] at h ⊢
      cases hx : env.execv (argv.get? 1) (argv.drop 1) with
      | replaced => simp [hx]
      | returned v e =>
          simp only [hx] at h
          by_cases hv : v < 0 <;> simp [hv] at h

/-- Witness for C8 at two concrete environments that agree on the
responses to the calls the program issues but differ elsewhere. -/
theorem no_other_state_touched_witness :
    main envAllOkStrict ["sploit", "/bin/sh"] =
      main envAllOk ["sploit", "/bin/sh"] ∧
    ∀ p a, (main envAllOkStrict ["sploit", "/bin/sh"]).outcome =
        Outcome.replaced p a →
      (main envAllOkStrict ["sploit", "/bin/sh"]).stderr = [] :=
  no_other_state_touched envAllOkStrict envAllOk ["sploit", "/bin/sh"]
    rfl rfl

/-- C9: the argument vector has no influence on the identity-transition
step: any two invocations under the same operating-system behaviour
issue the same identity-transition requests (a single setuid to 0), and
whether the replacement step is reached is the same for both, depending
only on the outcome of that request. -/
theorem argv_no_influence_on_setuid (env : Env) (argv argv2 : List String) :
    (main env argv).trace.filter isSetuidCall =
      (main env argv2).trace.filter isSetuidCall ∧
    ((∃ c ∈ (main env argv).trace, isExecvCall c = true) ↔
      (∃ c ∈ (main env argv2).trace, isExecvCall c = true)) := by
  constructor
  · rcases trace_shape env argv with h | h <;>
      rcases trace_shape env argv2 with h2 | h2 <;>
        simp [h, h2, isSetuidCall, isExecvCall]
  · rw [execReached_iff, execReached_iff]

/-- C10: the error line on the standard error stream is a fixed label,
a colon and the operating-system description: label "setuid" when the
identity transition fails, and label "execl" when the replacement step
fails — even though the replacement call actually issued is execv — so
the two failure modes are distinguishable from the message text. -/
theorem error_labels_distinguish (env env2 : Env) (argv : List String)
    (v v2 : Int) (e e2 : String)
    (h1 : env.setuid 0 = (v, e)) (h1n : v < 0)
    (h2 : 0 ≤ (env2.setuid 0).1)
    (h3 : env2.execv (argv.get? 1) (argv.drop 1) = ExecResult.returned v2 e2)
    (h3n : v2 < 0) :
    (main env argv).stderr = ["setuid" ++ ": " ++ e] ∧
    (main env2 argv).stderr = ["execl" ++ ": " ++ e2] ∧
    SysCall.execv (argv.get? 1) (argv.drop 1) ∈ (main env2 argv).trace := by
  have hlt : ¬ (env2.setuid 0).1 < 0 := not_lt.mpr h2
  have h3' : env2.execv argv[1]? argv.tail = ExecResult.returned v2 e2 := by
    simpa using h3
  refine ⟨?_, ?_, ?_⟩
  · simp [main, perrorLine, h1, h1n]
  · simp [main, perrorLine, hlt, h3', h3n]
  · simp [main, hlt, h3', h3n]

/-- Witness for C10 at concrete environments and a concrete argument
vector. -/
theorem error_labels_distinguish_witness :
    (main envSetuidFails ["sploit", "/bin/sh"]).stderr =
      ["setuid" ++ ": " ++ "Operation not permitted"] ∧
    (main envExecFails ["sploit", "/bin/sh"]).stderr =
      ["execl" ++ ": " ++ "No such file or directory"] ∧
    SysCall.execv ((["sploit", "/bin/sh"] : List String).get? 1)
        ((["sploit", "/bin/sh"] : List String).drop 1) ∈
      (main envExecFails ["sploit", "/bin/sh"]).trace :=
  error_labels_distinguish envSetuidFails envExecFails ["sploit", "/bin/sh"]
    (-1) (-1) "Operation not permitted" "No such file or directory"
    rfl (by decide) (by decide) rfl (by decide)

end SetuidSploit
